import Mathlib

/-!
Verification of the calculator MCP server (src/server.go) against its
natural-language specification.

Shallow embedding conventions:
* Go `float32`/`float64` operand values are modelled as rationals (`ℚ`);
  the validation and branching logic of the source only compares them with
  zero and applies the four arithmetic operations, where the embedding
  follows the source structurally.
* `ozzo-validation` semantics (the validation library the source uses):
  `validation.Required` fails on a zero value (empty string, numeric zero);
  `validation.In` skips empty values and otherwise fails when the value is
  not in the allowed list; the rules of one field are applied in order and
  stop at the first failure; `ValidateStruct` collects one error per failing
  field and returns nil iff no field failed.  Errors render as
  "field: message" joined by "; " with a final period (ozzo renders the
  fields sorted by name; the embedding keeps declaration order, which no
  claim inspects since claims never look at a multi-error rendering).
* Randomness is passed in explicitly: `rand.Intn(n)` becomes a `Nat` draw
  reduced mod `n`, with the panic of `Intn` on `n ≤ 0` modelled as a
  distinguished outcome; the truncated-to-int value produced from
  `rand.NormFloat64`/`rand.ExpFloat64` arithmetic becomes an arbitrary `Int`
  draw.
* Go `int` is the 64-bit machine integer: every arithmetic operation the
  handlers perform on `int` values (`max-min`, `+1`, `+min`) is wrapped
  into `[-2 ^ 63, 2 ^ 63)` by `wrap64`, so overflow-induced behaviour (in
  particular an `Intn` panic from a wrapped span) is preserved.
* Handlers return their full Go tuple: the `*mcp.CallToolResult` envelope,
  the typed result, and the Go `error` (as `Option String`).
-/

set_option autoImplicit false
set_option maxRecDepth 8192

/-- The parts of `*mcp.CallToolResult` the server constructs: the `IsError`
flag and the text of the single `TextContent` element. -/
structure CallToolResultM where
  isError : Bool
  text : String
deriving DecidableEq

/-- Rendering of an ozzo-validation `Errors` value (a list of
(field, message) pairs): "field: message" joined by "; " plus a final
period. -/
def renderErrors (errs : List (String × String)) : String :=
  String.intercalate "; " (errs.map fun e => e.1 ++ ": " ++ e.2) ++ "."

/-- Left-pad a digit string with zeros to the given width. -/
def padZeros (s : String) (width : Nat) : String :=
  String.mk (List.replicate (width - s.length) '0') ++ s

/-- Go `fmt.Sprintf("%f", x)`: the value rounded to six decimal places,
rendered with exactly six fraction digits.  `round (abs q * 10 ^ 6)` is
computed on the numerator/denominator so the definition evaluates by
kernel reduction.  (The source formats float values; on the decimals the
repository feeds through `%f` — the eight constants — the sixth place is
not a tie, so rounding direction conventions agree.) -/
def goFmtF (q : ℚ) : String :=
  let scaled : Nat := (2 * q.num.natAbs * 1000000 + q.den) / (2 * q.den)
  let sign := if q.num < 0 then "-" else ""
  sign ++ toString (scaled / 1000000) ++ "." ++ padZeros (toString (scaled % 1000000)) 6

/-- `CalculateParams` from src/server.go: operation plus two float32
operands (modelled as `ℚ`). -/
structure CalculateParams where
  operation : String
  num1 : ℚ
  num2 : ℚ
deriving DecidableEq

/-- `CalculateParams.Validate` from src/server.go.  Field rules in
declaration order: `Operation` is Required and In {add, subtract, multiply,
divide}; `Num1` is Required (numeric zero counts as blank); `Num2` is
Required and then checked by the divide-by-zero closure (which is
unreachable, because `Num2 = 0` already fails Required first).  Returns
`none` on success, `some errs` with the per-field errors otherwise. -/
def CalculateParams.Validate (p : CalculateParams) : Option (List (String × String)) :=
  let operationErr : Option (String × String) :=
    if p.operation = "" then some ("operation", "cannot be blank")
    else if p.operation ∈ ["add", "subtract", "multiply", "divide"] then none
    else some ("operation", "must be a valid value")
  let num1Err : Option (String × String) :=
    if p.num1 = 0 then some ("num1", "cannot be blank") else none
  let num2Err : Option (String × String) :=
    if p.num2 = 0 then some ("num2", "cannot be blank")
    else if p.operation = "divide" ∧ p.num2 = 0 then some ("num2", "cannot divide by zero")
    else none
  let errs := [operationErr, num1Err, num2Err].filterMap id
  if errs = [] then none else some errs

/-- The Go return tuple of `handleCalculate`: the envelope, the
`CalculateResult` payload, and the Go `error`. -/
structure HandleCalculateOut where
  call : CallToolResultM
  result : ℚ
  goErr : Option String
deriving DecidableEq

/-- `handleCalculate` from src/server.go: validate, then switch on the
operation.  On validation failure it returns an `IsError` envelope AND a
non-nil Go error.  (The Go declaration `var result float32` keeps `0` when
no case matches, which validation makes unreachable.) -/
def handleCalculate (param : CalculateParams) : HandleCalculateOut :=
  match param.Validate with
  | some errs =>
      { call := ⟨true, "Invalid parameters: " ++ renderErrors errs⟩
        result := 0
        goErr := some ("invalid parameters: " ++ renderErrors errs) }
  | none =>
      let result : ℚ :=
        if param.operation = "add" then param.num1 + param.num2
        else if param.operation = "subtract" then param.num1 - param.num2
        else if param.operation = "multiply" then param.num1 * param.num2
        else if param.operation = "divide" then param.num1 / param.num2
        else 0
      { call := ⟨false, "Result: " ++ goFmtF result⟩
        result := result
        goErr := none }

/-- `GenerateRandomNumberParams` from src/server.go: optional bounds and an
optional distribution string. -/
structure GenerateRandomNumberParams where
  min : Option Int
  max : Option Int
  distribution : String
deriving DecidableEq

/-- `GenerateRandomNumberParams.Validate` from src/server.go.  Field rules
in declaration order: `Distribution` must be In {"", uniform, normal,
exponential} (the In rule also skips empty values, which coincides with ""
being listed); `Min` and `Max` carry no rules of their own; a second `Min`
entry runs the closure requiring `*Min < *Max` when both pointers are
non-nil. -/
def GenerateRandomNumberParams.Validate (p : GenerateRandomNumberParams) :
    Option (List (String × String)) :=
  let distributionErr : Option (String × String) :=
    if p.distribution ∈ ["", "uniform", "normal", "exponential"] then none
    else some ("distribution", "must be a valid value")
  let minErr : Option (String × String) :=
    match p.min, p.max with
    | some a, some b => if a ≥ b then some ("min", "min must be less than max") else none
    | _, _ => none
  let errs := [distributionErr, minErr].filterMap id
  if errs = [] then none else some errs

/-- Two's-complement wrap onto the range of Go's machine `int` (64-bit):
every arithmetic operation the source performs on `int` values is reduced
into `[-2 ^ 63, 2 ^ 63)`. -/
def wrap64 (x : Int) : Int := (x + 2 ^ 63) % 2 ^ 64 - 2 ^ 63

/-- `rand.Intn(n)` with an explicit draw: Go panics when `n ≤ 0` (modelled
as `none`); otherwise the result is the draw reduced into `[0, n)`. -/
def goIntn (n : Int) (draw : Nat) : Option Int :=
  if n ≤ 0 then none else some ((draw % n.toNat : Nat) : Int)

/-- `clamp` from src/server.go. -/
def clamp (val min max : Int) : Int :=
  if val < min then min
  else if val > max then max
  else val

/-- Outcome of `handleGenerateRandomNumber`: either the Go runtime panic
raised by `rand.Intn` on a non-positive argument, or the Go return tuple
(envelope, `GenerateRandomNumberResult.Number`, Go error). -/
inductive GenOutcome where
  | panicked
  | out (call : CallToolResultM) (number : Int) (goErr : Option String)
deriving DecidableEq

/-- The success message of `handleGenerateRandomNumber`. -/
def genMessage (number : Int) (distribution : String) (min max : Int) : String :=
  "Generated random number: " ++ toString number ++ " (distribution: " ++ distribution ++
    ", range: [" ++ toString min ++ ", " ++ toString max ++ "])"

/-- `handleGenerateRandomNumber` from src/server.go: validate, default the
distribution to "uniform" and the bounds to 1 and 100, then switch on the
distribution.  `draw` models the `rand.Intn` draw of the uniform arm;
`realDraw` models the truncated-to-int float computed from
`rand.NormFloat64` (normal arm) or `rand.ExpFloat64 / lambda` (exponential
arm).  Every machine-int arithmetic step of the source — `max-min`, `+1`,
`+min` — wraps through `wrap64`, so the `rand.Intn` panic that an
overflowing span provokes in Go (e.g. min = -2^63, max = 2^63-1, where
max - min + 1 wraps to 0) is preserved. -/
def handleGenerateRandomNumber (param : GenerateRandomNumberParams)
    (draw : Nat) (realDraw : Int) : GenOutcome :=
  match param.Validate with
  | some errs =>
      .out ⟨true, "Invalid parameters: " ++ renderErrors errs⟩ 0
        (some ("invalid parameters: " ++ renderErrors errs))
  | none =>
      let distribution := if param.distribution ≠ "" then param.distribution else "uniform"
      let min := param.min.getD 1
      let max := param.max.getD 100
      if distribution = "uniform" ∨ distribution = "" then
        match goIntn (wrap64 (wrap64 (max - min) + 1)) draw with
        | none => .panicked
        | some v =>
            let number := wrap64 (v + min)
            .out ⟨false, genMessage number distribution min max⟩ number none
      else if distribution = "normal" then
        let number := clamp realDraw min max
        .out ⟨false, genMessage number distribution min max⟩ number none
      else if distribution = "exponential" then
        let number := clamp (wrap64 (realDraw + min)) min max
        .out ⟨false, genMessage number distribution min max⟩ number none
      else
        .out ⟨true, "Invalid distribution: " ++ distribution⟩ 0
          (some ("invalid distribution: " ++ distribution))

/-- The constants map of `handleMathConstants` in src/server.go (float64
literals, modelled as exact decimals in `ℚ` via `Rat.divInt`). -/
def mathConstants : List (String × ℚ) :=
  [("pi", Rat.divInt 3141592653589793 (10 ^ 15)),
   ("e", Rat.divInt 2718281828459045 (10 ^ 15)),
   ("golden_ratio", Rat.divInt 1618033988749895 (10 ^ 15)),
   ("sqrt2", Rat.divInt 14142135623730951 (10 ^ 16)),
   ("sqrt3", Rat.divInt 17320508075688772 (10 ^ 16)),
   ("ln2", Rat.divInt 6931471805599453 (10 ^ 16)),
   ("ln10", Rat.divInt 2302585092994046 (10 ^ 15)),
   ("euler", Rat.divInt 5772156649015329 (10 ^ 16))]

/-- Association-list lookup for the constants map (Go map indexing). -/
def constLookup (name : String) : List (String × ℚ) → Option ℚ
  | [] => none
  | (k, v) :: rest => if k = name then some v else constLookup name rest

/-- The JSON document `handleMathConstants` builds for the bare
`math://constants` URI (braces written as escapes). -/
def allConstantsJson : String :=
  "\x7b\n  \"pi\": " ++ goFmtF ((constLookup "pi" mathConstants).getD 0) ++
  ",\n  \"e\": " ++ goFmtF ((constLookup "e" mathConstants).getD 0) ++
  ",\n  \"golden_ratio\": " ++ goFmtF ((constLookup "golden_ratio" mathConstants).getD 0) ++
  ",\n  \"sqrt2\": " ++ goFmtF ((constLookup "sqrt2" mathConstants).getD 0) ++
  ",\n  \"sqrt3\": " ++ goFmtF ((constLookup "sqrt3" mathConstants).getD 0) ++
  ",\n  \"ln2\": " ++ goFmtF ((constLookup "ln2" mathConstants).getD 0) ++
  ",\n  \"ln10\": " ++ goFmtF ((constLookup "ln10" mathConstants).getD 0) ++
  ",\n  \"euler\": " ++ goFmtF ((constLookup "euler" mathConstants).getD 0) ++
  "\n\x7d"

/-- Outcome of `handleMathConstants`: a `ReadResourceResult` with one
contents element, or the `mcp.ResourceNotFoundError`. -/
inductive ResourceOutcome where
  | ok (uri text mimeType : String)
  | notFound (uri : String)
deriving DecidableEq

/-- Strip `pre` from the front of `s`, returning the remainder when `pre`
is a prefix.  Models the Go test `uri[:len(pre)] == pre` together with the
slice `uri[len(pre):]`; the prefix is all-ASCII, so Go's byte indexing and
character indexing agree. -/
def stripPre (pre s : List Char) : Option (List Char) :=
  match pre, s with
  | [], rest => some rest
  | _ :: _, [] => none
  | p :: ps, c :: cs => if p = c then stripPre ps cs else none

/-- `handleMathConstants` from src/server.go: the bare `math://constants`
URI returns the JSON document; a strictly longer URI starting with
`math://constants/` names a single constant, found in the map or reported
as `ResourceNotFoundError`; every other URI is `ResourceNotFoundError`.
(Go requires `len(uri) > len("math://constants/")`, i.e. a nonempty
remainder after the prefix.) -/
def handleMathConstants (uri : String) : ResourceOutcome :=
  if uri = "math://constants" then
    .ok uri allConstantsJson "application/json"
  else
    match stripPre "math://constants/".data uri.data with
    | some rest =>
        if rest = [] then .notFound uri
        else
          match constLookup (String.mk rest) mathConstants with
          | some value => .ok uri (goFmtF value) "text/plain"
          | none => .notFound uri
    | none => .notFound uri

/-- Digits-to-number accumulator used by the numeric-string models. -/
def digitsToNat (cs : List Char) : Nat :=
  cs.foldl (fun a c => a * 10 + (c.toNat - 48)) 0

/-- Go `strconv.Atoi`: an optional sign followed by one or more decimal
digits; anything else, including a value outside the 64-bit machine `int`
range (Atoi reports `ErrRange` there, and the callers keep their default
on any error), is an error. -/
def goAtoi (s : String) : Option Int :=
  let (neg, digits) :=
    match s.data with
    | '-' :: rest => (true, rest)
    | '+' :: rest => (false, rest)
    | rest => (false, rest)
  if digits = [] then none
  else if digits.all Char.isDigit then
    if neg then
      if digitsToNat digits ≤ 2 ^ 63 then some (-(digitsToNat digits : Int)) else none
    else
      if digitsToNat digits ≤ 2 ^ 63 - 1 then some (digitsToNat digits : Int) else none
  else none

/-- `parseFloat` from src/server.go, i.e. `fmt.Sscanf(s, "%f", &f)`:
Sscanf reads the longest float-shaped prefix and ignores trailing input,
failing only when no number can be read at all.  Modelled for the decimal
forms an optional sign, integer digits, and an optional fraction
(exponent notation and the special Inf/NaN forms are omitted; no claim
depends on the parsed value, only on the success/failure split and on
comparison of the value with zero). -/
def goParseFloat (s : String) : Option ℚ :=
  let (neg, rest) :=
    match s.data with
    | '-' :: r => (true, r)
    | '+' :: r => (false, r)
    | r => (false, r)
  let ip := rest.takeWhile Char.isDigit
  let rest2 := rest.drop ip.length
  let fp :=
    match rest2 with
    | '.' :: t => t.takeWhile Char.isDigit
    | _ => []
  if ip = [] ∧ fp = [] then none
  else
    let mag : Int := digitsToNat ip * 10 ^ fp.length + digitsToNat fp
    some (Rat.divInt (if neg then -mag else mag) (10 ^ fp.length))

/-- The parts of `*mcp.GetPromptResult` the server constructs: the
description and the text of its single user message. -/
structure GetPromptResultM where
  description : String
  message : String
deriving DecidableEq

/-- `handleCalculationExplanation` from src/server.go.  The three argument
strings model `req.Params.Arguments["operation"|"num1"|"num2"]` (a missing
key reads as "" from a Go map).  Every branch returns a prompt result
together with a nil Go error; the returned pair keeps the Go error slot
(`Option String`) explicit.  The `%g`-rendered numbers inside the
explanation strings are abstracted by `toString` of the rational value. -/
def handleCalculationExplanation (operation num1Str num2Str : String) :
    GetPromptResultM × Option String :=
  if operation = "" ∨ num1Str = "" ∨ num2Str = "" then
    (⟨"Calculation explanation prompt",
      "Please provide operation, num1, and num2 arguments"⟩, none)
  else
    match goParseFloat num1Str with
    | none => (⟨"", "Invalid number for num1: " ++ num1Str⟩, none)
    | some num1 =>
      match goParseFloat num2Str with
      | none => (⟨"", "Invalid number for num2: " ++ num2Str⟩, none)
      | some num2 =>
        if operation = "add" then
          let result := num1 + num2
          (⟨"Calculation explanation",
            "To add " ++ toString num1 ++ " and " ++ toString num2 ++
              ", you simply combine the two numbers: " ++ toString num1 ++ " + " ++
              toString num2 ++ " = " ++ toString result ++ "\n\nResult: " ++
              toString result⟩, none)
        else if operation = "subtract" then
          let result := num1 - num2
          (⟨"Calculation explanation",
            "To subtract " ++ toString num2 ++ " from " ++ toString num1 ++
              ", you take away the second number from the first: " ++ toString num1 ++
              " - " ++ toString num2 ++ " = " ++ toString result ++ "\n\nResult: " ++
              toString result⟩, none)
        else if operation = "multiply" then
          let result := num1 * num2
          (⟨"Calculation explanation",
            "To multiply " ++ toString num1 ++ " by " ++ toString num2 ++
              ", you calculate the product: " ++ toString num1 ++ " x " ++
              toString num2 ++ " = " ++ toString result ++ "\n\nResult: " ++
              toString result⟩, none)
        else if operation = "divide" then
          if num2 = 0 then
            (⟨"", "Cannot divide by zero. Division by zero is undefined in mathematics."⟩,
              none)
          else
            let result := num1 / num2
            (⟨"Calculation explanation",
              "To divide " ++ toString num1 ++ " by " ++ toString num2 ++
                ", you calculate the quotient: " ++ toString num1 ++ " / " ++
                toString num2 ++ " = " ++ toString result ++ "\n\nResult: " ++
                toString result⟩, none)
        else
          (⟨"", "Invalid operation: " ++ operation ++
              ". Valid operations are: add, subtract, multiply, divide"⟩, none)

/-- Outcome of `handleGenerateRandomNumberPrompt`: either the `rand.Intn`
panic (`none`) or the prompt result (every branch of the Go function pairs
its result with a nil error, so no error slot is needed; the claims about
this handler concern the message text).  The computed mean/stdDev numbers
Go interpolates into the normal and exponential explanation sentences are
abstracted to fixed text, which no claim inspects. -/
def handleGenerateRandomNumberPrompt (minStr maxStr distStr : String)
    (draw : Nat) (realDraw : Int) : Option GetPromptResultM :=
  let min : Int := match if minStr ≠ "" then goAtoi minStr else none with
    | some parsed => parsed
    | none => 1
  let max : Int := match if maxStr ≠ "" then goAtoi maxStr else none with
    | some parsed => parsed
    | none => 100
  let distribution := if distStr ≠ "" then distStr else "uniform"
  if min ≥ max then
    some ⟨"", "Invalid range: min (" ++ toString min ++ ") must be less than max (" ++
      toString max ++ ")"⟩
  else if distribution ≠ "" ∧ distribution ≠ "uniform" ∧ distribution ≠ "normal" ∧
      distribution ≠ "exponential" then
    some ⟨"", "Invalid distribution: " ++ distribution ++
      ". Valid distributions are: uniform, normal, exponential"⟩
  else if distribution = "uniform" ∨ distribution = "" then
    match goIntn (wrap64 (wrap64 (max - min) + 1)) draw with
    | none => none
    | some v =>
        some ⟨"Random number generation",
          "Using uniform distribution, each number between " ++ toString min ++ " and " ++
            toString max ++ " has an equal probability of being selected." ++
            "\n\nGenerated random number: " ++ toString (wrap64 (v + min)) ++
            "\nRange: [" ++ toString min ++ ", " ++ toString max ++
            "]\nDistribution: " ++ distribution⟩
  else if distribution = "normal" then
    let number := clamp realDraw min max
    some ⟨"Random number generation",
      "Using normal (Gaussian) distribution. Values near the center are more likely." ++
        "\n\nGenerated random number: " ++ toString number ++
        "\nRange: [" ++ toString min ++ ", " ++ toString max ++
        "]\nDistribution: " ++ distribution⟩
  else
    let number := clamp (wrap64 (realDraw + min)) min max
    some ⟨"Random number generation",
      "Using exponential distribution. Lower values in the range are more likely." ++
        "\n\nGenerated random number: " ++ toString number ++
        "\nRange: [" ++ toString min ++ ", " ++ toString max ++
        "]\nDistribution: " ++ distribution⟩

/-- The three capability kinds of the spec's data model. -/
inductive CapabilityKind where
  | tool
  | resource
  | prompt
deriving DecidableEq

/-- A registry state: entries keyed by (kind, name), in registration order.
The entry payload is kept abstract (`α`); the startup registration uses the
handler's name as its payload. -/
abbrev RegistryOf (α : Type) : Type := List ((CapabilityKind × String) × α)

/-- Modelled from the spec: the Registry lives in the external MCP SDK, not
under src (src only calls `mcp.AddTool` / `server.AddResource` /
`server.AddPrompt`).  Spec section 4.2: "Lookup(kind, name) ->
CapabilityEntry | NotFound — pure read". -/
def regLookup {α : Type} (r : RegistryOf α) (k : CapabilityKind) (n : String) : Option α :=
  match r with
  | [] => none
  | ((k2, n2), h) :: rest => if k2 = k ∧ n2 = n then some h else regLookup rest k n

/-- Modelled from the spec: spec section 4.2: "Register(kind, declaration,
handler) — fails (fatal, startup-time) if (kind, declaration.name) already
present.  Otherwise stores the entry."  Failure is `none`. -/
def regRegister {α : Type} (r : RegistryOf α) (k : CapabilityKind) (n : String) (h : α) :
    Option (RegistryOf α) :=
  match regLookup r k n with
  | some _ => none
  | none => some (r ++ [((k, n), h)])

/-- The startup registration sequence of `createMCPServer` in src/server.go,
in source order: two tools, one resource, two prompts, each paired with its
handler. -/
def createMCPServerRegistry : Option (RegistryOf String) :=
  (regRegister [] .tool "calculate" "handleCalculate").bind fun r1 =>
  (regRegister r1 .tool "generate-random-number" "handleGenerateRandomNumber").bind fun r2 =>
  (regRegister r2 .resource "math-constants" "handleMathConstants").bind fun r3 =>
  (regRegister r3 .prompt "calculation-explanation" "handleCalculationExplanation").bind fun r4 =>
  regRegister r4 .prompt "generate-random-number-prompt" "handleGenerateRandomNumberPrompt"

/-! ### Helper lemmas -/

theorem calcValidate_none_iff (p : CalculateParams) :
    p.Validate = none ↔
      p.operation ∈ ["add", "subtract", "multiply", "divide"] ∧ p.num1 ≠ 0 ∧ p.num2 ≠ 0 := by
  unfold CalculateParams.Validate
  by_cases h1 : p.operation = "" <;>
    by_cases h2 : p.operation ∈ ["add", "subtract", "multiply", "divide"] <;>
      by_cases h3 : p.num1 = 0 <;>
        by_cases h4 : p.num2 = 0 <;>
          simp_all

theorem genValidate_none_iff (p : GenerateRandomNumberParams) :
    p.Validate = none ↔
      (p.distribution ∈ ["", "uniform", "normal", "exponential"] ∧
        ∀ a b, p.min = some a → p.max = some b → a < b) := by
  unfold GenerateRandomNumberParams.Validate
  rcases hmin : p.min with _ | a <;> rcases hmax : p.max with _ | b <;>
    by_cases h1 : p.distribution ∈ ["", "uniform", "normal", "exponential"] <;>
      simp_all

theorem clamp_mem (v lo hi : Int) (h : lo ≤ hi) :
    lo ≤ clamp v lo hi ∧ clamp v lo hi ≤ hi := by
  unfold clamp
  split_ifs <;> omega

theorem wrap64_eq_self (x : Int) (h1 : -9223372036854775808 ≤ x)
    (h2 : x < 9223372036854775808) : wrap64 x = x := by
  unfold wrap64
  norm_num
  omega

theorem goIntn_pos (n : Int) (d : Nat) (h : 0 < n) :
    ∃ v, goIntn n d = some v ∧ 0 ≤ v ∧ v < n := by
  refine ⟨((d % n.toNat : Nat) : Int), ?_, ?_, ?_⟩
  · unfold goIntn
    rw [if_neg (by omega)]
  · exact Int.ofNat_nonneg _
  · have hpos : 0 < n.toNat := by omega
    have := Nat.mod_lt d hpos
    omega

/-! ### Claim theorems -/

/-- Claim C1, counterexample: a calculate payload with every field present
and in its declared domain under the claim's reading (operation "add",
num1 = 0 a supplied zero, num2 = 1) fails `Validate`: the ozzo `Required`
rule treats a zero-valued number as blank. -/
theorem calculate_validate_zero_counterexample :
    CalculateParams.Validate ⟨"add", 0, 1⟩ = some [("num1", "cannot be blank")] := by
  decide

/-- Claim C1, amended: `CalculateParams.Validate` succeeds exactly when the
operation is one of add, subtract, multiply, divide and both operands are
nonzero; a zero-valued num1 or num2 is treated as a missing field and
rejected. -/
theorem calculate_validate_success_iff (p : CalculateParams) :
    p.Validate = none ↔
      p.operation ∈ ["add", "subtract", "multiply", "divide"] ∧ p.num1 ≠ 0 ∧ p.num2 ≠ 0 :=
  calcValidate_none_iff p

/-- Claim C2: for every invocation of the calculate handler with operation
"divide" and num2 = 0, validation fails and the handler returns a
structured error envelope: the error flag is set and the text carries a
nonempty invalid-parameters message.  The handler is a total function, so
no crash is possible, and the failure is reported inside the result
envelope. -/
theorem calculate_divide_by_zero_envelope (num1 : ℚ) :
    ∃ errs, CalculateParams.Validate ⟨"divide", num1, 0⟩ = some errs ∧
      (handleCalculate ⟨"divide", num1, 0⟩).call =
        ⟨true, "Invalid parameters: " ++ renderErrors errs⟩ ∧
      renderErrors errs ≠ "" := by
  by_cases h : num1 = 0
  · subst h
    exact ⟨[("num1", "cannot be blank"), ("num2", "cannot be blank")],
      by decide, by decide, by decide⟩
  · refine ⟨[("num2", "cannot be blank")], ?_, ?_, by decide⟩
    · simp [CalculateParams.Validate, h]
    · have hv : CalculateParams.Validate ⟨"divide", num1, 0⟩ =
          some [("num2", "cannot be blank")] := by
        simp [CalculateParams.Validate, h]
      simp [handleCalculate, hv]

/-- Claim C3, counterexample: on a validation failure (unknown operation
"modulo") `handleCalculate` does not leave the Go error return nil — it
propagates a non-nil error alongside the error envelope. -/
theorem calculate_validation_failure_goerr_counterexample :
    (handleCalculate ⟨"modulo", 1, 1⟩).goErr =
      some "invalid parameters: operation: must be a valid value." := by
  decide

/-- Claim C3, amended: for every payload failing validation, both tool
handlers return an envelope with the error flag set AND additionally
propagate a non-nil Go error built from the validation failure. -/
theorem handlers_validation_failure_dual_report
    (p : CalculateParams) (q : GenerateRandomNumberParams) (d : Nat) (rv : Int)
    (hp : p.Validate ≠ none) (hq : q.Validate ≠ none) :
    ((handleCalculate p).call.isError = true ∧ (handleCalculate p).goErr ≠ none) ∧
    ∃ errs, q.Validate = some errs ∧
      handleGenerateRandomNumber q d rv =
        .out ⟨true, "Invalid parameters: " ++ renderErrors errs⟩ 0
          (some ("invalid parameters: " ++ renderErrors errs)) := by
  obtain ⟨e1, he1⟩ := Option.ne_none_iff_exists'.mp hp
  obtain ⟨e2, he2⟩ := Option.ne_none_iff_exists'.mp hq
  refine ⟨⟨?_, ?_⟩, e2, he2, ?_⟩ <;>
    simp [handleCalculate, handleGenerateRandomNumber, he1, he2]

/-- Witness for the amended claim C3 at a concrete invalid calculate
payload and a concrete invalid random-number payload. -/
theorem handlers_validation_failure_dual_report_witness :
    ((handleCalculate ⟨"modulo", 1, 2⟩).call.isError = true ∧
      (handleCalculate ⟨"modulo", 1, 2⟩).goErr ≠ none) ∧
    ∃ errs, GenerateRandomNumberParams.Validate ⟨some 9, some 2, "uniform"⟩ = some errs ∧
      handleGenerateRandomNumber ⟨some 9, some 2, "uniform"⟩ 0 0 =
        .out ⟨true, "Invalid parameters: " ++ renderErrors errs⟩ 0
          (some ("invalid parameters: " ++ renderErrors errs)) :=
  handlers_validation_failure_dual_report ⟨"modulo", 1, 2⟩ ⟨some 9, some 2, "uniform"⟩ 0 0
    (by decide) (by decide)

/-- Claim C5: for every payload passing validation, `handleCalculate`
returns a success envelope (error flag clear, nil Go error) whose result is
the named arithmetic operation applied to the operands. -/
theorem calculate_success_result (p : CalculateParams) (h : p.Validate = none) :
    (handleCalculate p).call.isError = false ∧ (handleCalculate p).goErr = none ∧
    (p.operation = "add" → (handleCalculate p).result = p.num1 + p.num2) ∧
    (p.operation = "subtract" → (handleCalculate p).result = p.num1 - p.num2) ∧
    (p.operation = "multiply" → (handleCalculate p).result = p.num1 * p.num2) ∧
    (p.operation = "divide" → (handleCalculate p).result = p.num1 / p.num2) := by
  simp only [handleCalculate, h]
  refine ⟨trivial, trivial, ?_, ?_, ?_, ?_⟩ <;> intro hop <;> simp [hop]

/-- Witness for claim C5: adding 2 and 3 yields the success payload 5. -/
theorem calculate_success_result_witness :
    (handleCalculate ⟨"add", 2, 3⟩).result = 5 ∧
      (handleCalculate ⟨"add", 2, 3⟩).call.isError = false := by
  have h := calculate_success_result ⟨"add", 2, 3⟩ (by decide)
  refine ⟨?_, h.1⟩
  rw [h.2.2.1 rfl]
  norm_num

/-- Claim C6: with both optional bounds supplied and the distribution
string inside its allowed set, `GenerateRandomNumberParams.Validate` fails
exactly when min ≥ max; min = max is rejected and min < max accepted. -/
theorem generate_validate_bounds_iff (a b : Int) (dist : String)
    (h : dist ∈ ["", "uniform", "normal", "exponential"]) :
    GenerateRandomNumberParams.Validate ⟨some a, some b, dist⟩ ≠ none ↔ a ≥ b := by
  rw [Ne, genValidate_none_iff]
  simp only [h, true_and]
  constructor
  · intro hcon
    by_contra hab
    exact hcon fun x y hx hy => by
      cases hx; cases hy; omega
  · intro hab hforall
    have := hforall a b rfl rfl
    omega

/-- Witness for claim C6: min = max = 5 is rejected. -/
theorem generate_validate_bounds_iff_witness :
    GenerateRandomNumberParams.Validate ⟨some 5, some 5, "uniform"⟩ ≠ none :=
  (generate_validate_bounds_iff 5 5 "uniform" (by decide)).mpr (by decide)

/-- Claim C4, counterexample: the request supplying only min = 200 (max
defaults to 100) passes validation — the range rule fires only when both
bounds are supplied — yet the uniform arm then calls `rand.Intn` with the
non-positive argument max - min + 1 = -99 and panics, so no number in
[min, max] is returned. -/
theorem generate_uniform_panic_counterexample :
    GenerateRandomNumberParams.Validate ⟨some 200, none, "uniform"⟩ = none ∧
      handleGenerateRandomNumber ⟨some 200, none, "uniform"⟩ 0 0 = .panicked := by
  decide

/-- The Go machine-int wrap the model preserves: the extreme representable
bounds pass validation with min strictly below max, yet in the uniform arm
max - min + 1 wraps to 0 and `rand.Intn` panics, exactly as the source
does on a 64-bit platform; the no-overflow hypothesis of the amended
claim C4 is therefore necessary. -/
theorem generate_uniform_overflow_panic :
    GenerateRandomNumberParams.Validate
        ⟨some (-(2 ^ 63)), some (2 ^ 63 - 1), "uniform"⟩ = none ∧
      handleGenerateRandomNumber ⟨some (-(2 ^ 63)), some (2 ^ 63 - 1), "uniform"⟩ 0 0 =
        .panicked := by
  decide

/-- Claim C4, amended: for every validated request whose effective bounds
(min defaulting to 1, max to 100) are 64-bit machine integers, satisfy
min < max, and span at most 2^63 - 2 — so that the machine-int computation
max - min + 1 does not overflow — and for every draw of the random source,
the handler returns a success tuple whose number lies in [min, max], for
each of the distribution variants uniform (also selected by the empty
string), normal, and exponential. -/
theorem generate_number_in_range (p : GenerateRandomNumberParams) (d : Nat) (rv : Int)
    (hv : p.Validate = none)
    (hrep : -(2 ^ 63) ≤ p.min.getD 1 ∧ p.max.getD 100 ≤ 2 ^ 63 - 1)
    (hlt : p.min.getD 1 < p.max.getD 100)
    (hspan : p.max.getD 100 - p.min.getD 1 ≤ 2 ^ 63 - 2) :
    ∃ c n, handleGenerateRandomNumber p d rv = .out c n none ∧
      p.min.getD 1 ≤ n ∧ n ≤ p.max.getD 100 := by
  obtain ⟨hdist, -⟩ := (genValidate_none_iff p).mp hv
  simp only [List.mem_cons, List.mem_singleton, List.not_mem_nil, or_false] at hdist
  obtain ⟨hrep1, hrep2⟩ := hrep
  norm_num at hrep1 hrep2 hspan
  have hc := clamp_mem rv (p.min.getD 1) (p.max.getD 100) (le_of_lt hlt)
  have hc2 := clamp_mem (wrap64 (rv + p.min.getD 1)) (p.min.getD 1) (p.max.getD 100)
    (le_of_lt hlt)
  have hw1 : wrap64 (p.max.getD 100 - p.min.getD 1) =
      p.max.getD 100 - p.min.getD 1 :=
    wrap64_eq_self _ (by omega) (by omega)
  have hw2 : wrap64 (p.max.getD 100 - p.min.getD 1 + 1) =
      p.max.getD 100 - p.min.getD 1 + 1 :=
    wrap64_eq_self _ (by omega) (by omega)
  obtain ⟨v, hg, hv0, hvlt⟩ :=
    goIntn_pos (p.max.getD 100 - p.min.getD 1 + 1) d (by omega)
  have hw3 : wrap64 (v + p.min.getD 1) = v + p.min.getD 1 :=
    wrap64_eq_self _ (by omega) (by omega)
  rcases hdist with h | h | h | h <;>
    simp only [handleGenerateRandomNumber, hv, h] <;>
    simp [hw1, hw2, hg, hw3] <;>
    exact ⟨_, _, ⟨rfl, rfl⟩, by omega, by omega⟩

/-- Witness for the amended claim C4: the default request (no bounds,
empty distribution) with draw 0 yields a number inside [1, 100]. -/
theorem generate_number_in_range_witness :
    ∃ c n, handleGenerateRandomNumber ⟨none, none, ""⟩ 0 0 = .out c n none ∧
      1 ≤ n ∧ n ≤ 100 :=
  generate_number_in_range ⟨none, none, ""⟩ 0 0 (by decide) (by decide) (by decide)
    (by decide)

/-- Claim C7, counterexample: on the unrecognized distribution "poisson"
the tool handler does not fall back to uniform and generate a number — it
fails validation and reports an error. -/
theorem unknown_distribution_counterexample :
    handleGenerateRandomNumber ⟨none, none, "poisson"⟩ 0 0 =
      .out ⟨true, "Invalid parameters: distribution: must be a valid value."⟩ 0
        (some "invalid parameters: distribution: must be a valid value.") := by
  decide

/-- Claim C7, amended: for every distribution string outside
{"", uniform, normal, exponential}, both random-number handlers report the
unrecognized string as an error rather than silently falling back to the
uniform default: the tool handler fails validation and returns an error
envelope with a non-nil Go error, and the prompt handler returns the
invalid-distribution message. -/
theorem unknown_distribution_reported (dist : String) (d : Nat) (rv : Int)
    (h : dist ∉ ["", "uniform", "normal", "exponential"]) :
    handleGenerateRandomNumber ⟨none, none, dist⟩ d rv =
      .out ⟨true, "Invalid parameters: distribution: must be a valid value."⟩ 0
        (some "invalid parameters: distribution: must be a valid value.") ∧
    handleGenerateRandomNumberPrompt "" "" dist d rv =
      some ⟨"", "Invalid distribution: " ++ dist ++
        ". Valid distributions are: uniform, normal, exponential"⟩ := by
  simp only [List.mem_cons, List.mem_singleton, List.not_mem_nil, or_false] at h
  push_neg at h
  obtain ⟨h0, h1, h2, h3⟩ := h
  constructor
  · have hval : GenerateRandomNumberParams.Validate ⟨none, none, dist⟩ =
        some [("distribution", "must be a valid value")] := by
      simp [GenerateRandomNumberParams.Validate, h0, h1, h2, h3]
    have hren : renderErrors [("distribution", "must be a valid value")] =
        "distribution: must be a valid value." := rfl
    simp [handleGenerateRandomNumber, hval, hren]
  · simp [handleGenerateRandomNumberPrompt, h0, h1, h2, h3]

/-- Witness for the amended claim C7 at the concrete distribution string
"gaussian". -/
theorem unknown_distribution_reported_witness :
    handleGenerateRandomNumber ⟨none, none, "gaussian"⟩ 3 7 =
      .out ⟨true, "Invalid parameters: distribution: must be a valid value."⟩ 0
        (some "invalid parameters: distribution: must be a valid value.") ∧
    handleGenerateRandomNumberPrompt "" "" "gaussian" 3 7 =
      some ⟨"", "Invalid distribution: gaussian. Valid distributions are: uniform, normal, exponential"⟩ :=
  unknown_distribution_reported "gaussian" 3 7 (by decide)

/-- Helper: appending a fresh (kind, name) entry makes lookup of that key
return the new entry. -/
theorem regLookup_append {α : Type} (r : RegistryOf α) (k : CapabilityKind)
    (n : String) (e : α) (h : regLookup r k n = none) :
    regLookup (r ++ [((k, n), e)]) k n = some e := by
  induction r with
  | nil => simp [regLookup]
  | cons hd tl ih =>
      obtain ⟨⟨k2, n2⟩, h2⟩ := hd
      by_cases hc : k2 = k ∧ n2 = n
      · simp [regLookup, hc] at h
      · simp only [regLookup, List.cons_append, if_neg hc] at h ⊢
        exact ih h

/-- The registry contents after the five startup registrations of
`createMCPServer`. -/
def calcRegistryEntries : RegistryOf String :=
  [((.tool, "calculate"), "handleCalculate"),
   ((.tool, "generate-random-number"), "handleGenerateRandomNumber"),
   ((.resource, "math-constants"), "handleMathConstants"),
   ((.prompt, "calculation-explanation"), "handleCalculationExplanation"),
   ((.prompt, "generate-random-number-prompt"), "handleGenerateRandomNumberPrompt")]

/-- Claim C8: a successful registration makes lookup return exactly the
registered entry; registering the same (kind, name) a second time fails;
and the five startup registrations of `createMCPServer` are pairwise
distinct per kind, so running them all through the spec-modelled registry
succeeds, with each lookup returning the handler that was registered. -/
theorem registry_startup_unique_lookup {α : Type}
    (r r2 : RegistryOf α) (k : CapabilityKind) (n : String) (e e2 : α)
    (h : regRegister r k n e = some r2) :
    regLookup r2 k n = some e ∧
    regRegister r2 k n e2 = none ∧
    createMCPServerRegistry = some calcRegistryEntries ∧
    regLookup calcRegistryEntries .tool "calculate" = some "handleCalculate" ∧
    regLookup calcRegistryEntries .tool "generate-random-number" =
      some "handleGenerateRandomNumber" ∧
    regLookup calcRegistryEntries .resource "math-constants" = some "handleMathConstants" ∧
    regLookup calcRegistryEntries .prompt "calculation-explanation" =
      some "handleCalculationExplanation" ∧
    regLookup calcRegistryEntries .prompt "generate-random-number-prompt" =
      some "handleGenerateRandomNumberPrompt" := by
  have hl : regLookup r k n = none := by
    by_cases hc : regLookup r k n = none
    · exact hc
    · obtain ⟨x, hx⟩ := Option.ne_none_iff_exists'.mp hc
      simp [regRegister, hx] at h
  have hr2 : r2 = r ++ [((k, n), e)] := by
    simp [regRegister, hl] at h
    exact h.symm
  subst hr2
  have hlook := regLookup_append r k n e hl
  refine ⟨hlook, ?_, by decide, by decide, by decide, by decide, by decide, by decide⟩
  simp [regRegister, hlook]

/-- Witness for claim C8: registering ("tool", "x") into the empty registry
and then registering the same key again. -/
theorem registry_startup_unique_lookup_witness :
    regLookup [((CapabilityKind.tool, "x"), "h1")] .tool "x" = some "h1" ∧
    regRegister [((CapabilityKind.tool, "x"), "h1")] .tool "x" "h2" = none ∧
    createMCPServerRegistry = some calcRegistryEntries ∧
    regLookup calcRegistryEntries .tool "calculate" = some "handleCalculate" ∧
    regLookup calcRegistryEntries .tool "generate-random-number" =
      some "handleGenerateRandomNumber" ∧
    regLookup calcRegistryEntries .resource "math-constants" = some "handleMathConstants" ∧
    regLookup calcRegistryEntries .prompt "calculation-explanation" =
      some "handleCalculationExplanation" ∧
    regLookup calcRegistryEntries .prompt "generate-random-number-prompt" =
      some "handleGenerateRandomNumberPrompt" :=
  registry_startup_unique_lookup [] [((CapabilityKind.tool, "x"), "h1")] .tool "x" "h1" "h2" rfl

/-- Claim C10: for every argument map — missing arguments, non-numeric
operand strings, an unknown operation, division by zero — the calculation
explanation prompt handler returns a prompt result with a nil Go error:
every failure is rendered as a message inside the returned result, and the
Go error slot is nil on every branch. -/
theorem calculation_explanation_never_errors (operation num1Str num2Str : String) :
    (handleCalculationExplanation operation num1Str num2Str).2 = none := by
  unfold handleCalculationExplanation
  by_cases h0 : operation = "" ∨ num1Str = "" ∨ num2Str = ""
  · simp [h0]
  · simp only [h0, if_false]
    rcases h1 : goParseFloat num1Str with _ | n1
    · rfl
    · rcases h2 : goParseFloat num2Str with _ | n2
      · rfl
      · by_cases hz : n2 = 0 <;> split_ifs <;> simp [hz]

/-- Helper: `stripPre` succeeds exactly on lists extending the prefix. -/
theorem stripPre_eq_some_iff (pre s rest : List Char) :
    stripPre pre s = some rest ↔ s = pre ++ rest := by
  induction pre generalizing s with
  | nil => simp [stripPre]
  | cons p ps ih =>
      cases s with
      | nil => simp [stripPre]
      | cons c cs =>
          by_cases hc : p = c
          · subst hc
            simp [stripPre, ih]
          · simp only [stripPre, if_neg hc, List.cons_append]
            constructor
            · intro h
              exact Option.noConfusion h
            · intro h
              injection h with h1 h2
              exact absurd h1.symm hc

/-- Helper: the constants map lookup succeeds exactly on its key set. -/
theorem constLookup_isSome_iff (name : String) (l : List (String × ℚ)) :
    (constLookup name l).isSome ↔ name ∈ l.map Prod.fst := by
  induction l with
  | nil => simp [constLookup]
  | cons hd tl ih =>
      obtain ⟨k, v⟩ := hd
      by_cases hc : k = name
      · subst hc
        simp [constLookup]
      · simp [constLookup, hc, ih, Ne.symm hc]

/-- Helper: the resource handler on a single-constant URI built from a key
of the constants map. -/
theorem mathConstants_name_ok (name : String) (value : ℚ)
    (hname : name ≠ "") (h : constLookup name mathConstants = some value) :
    handleMathConstants ("math://constants/" ++ name) =
      .ok ("math://constants/" ++ name) (goFmtF value) "text/plain" := by
  have hnot : ("math://constants/" ++ name) ≠ "math://constants" := by
    intro hcontra
    have hlen := congrArg String.length hcontra
    rw [String.length_append] at hlen
    have h17 : ("math://constants/" : String).length = 17 := by decide
    have h16 : ("math://constants" : String).length = 16 := by decide
    omega
  have hs : stripPre "math://constants/".data ("math://constants/" ++ name).data =
      some name.data :=
    (stripPre_eq_some_iff _ _ _).mpr rfl
  have hd : name.data ≠ [] := by
    intro hcon
    exact hname (String.ext hcon)
  simp only [handleMathConstants, if_neg hnot, hs, if_neg hd]
  have hmk : String.mk name.data = name := rfl
  rw [hmk, h]

/-- Helper: the resource handler either succeeds on the request URI or
reports it not found. -/
theorem mathConstants_cases (uri : String) :
    (∃ text mime, handleMathConstants uri = .ok uri text mime) ∨
      handleMathConstants uri = .notFound uri := by
  unfold handleMathConstants
  by_cases h1 : uri = "math://constants"
  · exact .inl ⟨allConstantsJson, "application/json", by simp [h1]⟩
  · simp only [if_neg h1]
    cases hsp : stripPre "math://constants/".data uri.data with
    | none => exact .inr rfl
    | some rest =>
        by_cases h2 : rest = []
        · simp only [if_pos h2]
          exact .inr trivial
        · simp only [if_neg h2]
          cases hcl : constLookup (String.mk rest) mathConstants with
          | none => exact .inr rfl
          | some v => exact .inl ⟨goFmtF v, "text/plain", rfl⟩

/-- Helper: success of the resource handler characterised by the URI
shape. -/
theorem mathConstants_ok_iff (uri : String) :
    (∃ text mime, handleMathConstants uri = .ok uri text mime) ↔
      (uri = "math://constants" ∨
        ∃ name, name ∈ mathConstants.map Prod.fst ∧ uri = "math://constants/" ++ name) := by
  constructor
  · intro hex
    by_cases h1 : uri = "math://constants"
    · exact .inl h1
    · refine .inr ?_
      simp only [handleMathConstants, if_neg h1] at hex
      cases hsp : stripPre "math://constants/".data uri.data with
      | none => simp [hsp] at hex
      | some rest =>
          simp only [hsp] at hex
          by_cases h2 : rest = []
          · simp [if_pos h2] at hex
          · simp only [if_neg h2] at hex
            cases hcl : constLookup (String.mk rest) mathConstants with
            | none => simp [hcl] at hex
            | some v =>
                have huri : uri.data = "math://constants/".data ++ rest :=
                  (stripPre_eq_some_iff _ _ _).mp hsp
                refine ⟨String.mk rest, ?_, String.ext huri⟩
                exact (constLookup_isSome_iff _ _).mp (by simp [hcl])
  · intro hcond
    rcases hcond with h1 | ⟨name, hmem, rfl⟩
    · subst h1
      exact ⟨allConstantsJson, "application/json", by decide⟩
    · have hname : name ≠ "" := by
        intro h0
        subst h0
        revert hmem
        decide
      have hsome : (constLookup name mathConstants).isSome :=
        (constLookup_isSome_iff _ _).mpr hmem
      obtain ⟨v, hv⟩ := Option.isSome_iff_exists.mp hsome
      exact ⟨goFmtF v, "text/plain", mathConstants_name_ok name v hname hv⟩

/-- Claim C9: `handleMathConstants` succeeds exactly on the bare
`math://constants` URI — returning the JSON document listing all eight
constants — and on `math://constants/<name>` for `<name>` one of the eight
map keys — returning that constant's rendered value as plain text; every
other URI gets the resource-not-found error. -/
theorem math_constants_spec (uri : String) :
    handleMathConstants "math://constants" =
      .ok "math://constants" allConstantsJson "application/json" ∧
    (∀ name value, name ≠ "" → constLookup name mathConstants = some value →
      handleMathConstants ("math://constants/" ++ name) =
        .ok ("math://constants/" ++ name) (goFmtF value) "text/plain") ∧
    ((∃ text mime, handleMathConstants uri = .ok uri text mime) ↔
      (uri = "math://constants" ∨
        ∃ name, name ∈ mathConstants.map Prod.fst ∧ uri = "math://constants/" ++ name)) ∧
    ((¬ (uri = "math://constants" ∨
        ∃ name, name ∈ mathConstants.map Prod.fst ∧ uri = "math://constants/" ++ name)) →
      handleMathConstants uri = .notFound uri) := by
  refine ⟨by decide, fun name value hn hv => mathConstants_name_ok name value hn hv,
    mathConstants_ok_iff uri, fun hnot => ?_⟩
  rcases mathConstants_cases uri with hok | hnf
  · exact absurd ((mathConstants_ok_iff uri).mp hok) hnot
  · exact hnf

/-- Witness for claim C9: the URI naming the constant pi. -/
theorem math_constants_spec_witness :
    handleMathConstants ("math://constants/" ++ "pi") =
      .ok ("math://constants/" ++ "pi")
        (goFmtF (Rat.divInt 3141592653589793 (10 ^ 15))) "text/plain" :=
  (math_constants_spec "math://constants/pi").2.1 "pi"
    (Rat.divInt 3141592653589793 (10 ^ 15)) (by decide) (by decide)

